import Mathlib

/-!
Verification of the student tracker application (app.py).

The store is the pair of relations created by init_db:
  students(roll_number INTEGER PRIMARY KEY, name TEXT NOT NULL)
  grades(roll_number INTEGER, subject TEXT NOT NULL, grade REAL NOT NULL,
         FOREIGN KEY (roll_number) REFERENCES students(roll_number))
SQLite does not enforce the foreign key (PRAGMA foreign_keys is never turned
on), so a grade row may reference a roll_number with no student.  Grades are
modelled as exact rationals; every claim here is about values and control
flow, not about binary floating-point rounding.

Each repository method of class StudentTracker becomes a function on the
store, returning the new store together with the values the method returns.
The Flask handlers become functions returning the new store and an HTTP
outcome (redirect, a status/body response, or an uncaught exception).
-/

namespace StudentTrackerApp

/-- A row of the students relation: (roll_number, name). -/
abbrev StudentRow := Int × String

/-- A row of the grades relation: (roll_number, subject, grade). -/
abbrev GradeRow := Int × String × Rat

/-- The persistent store: the two relations created by init_db, each kept in
the order rows were inserted (ascending rowid for grades; for students the
rowid is roll_number itself, see getAllStudents). -/
structure DB where
  students : List StudentRow
  grades : List GradeRow
deriving DecidableEq, Repr

/-- The store of a fresh database file right after init_db. -/
def emptyDB : DB := { students := [], grades := [] }

/-- The roll numbers present in the students relation. -/
def DB.rolls (db : DB) : List Int := db.students.map Prod.fst

/-- StudentTracker.add_student: INSERT INTO students (name, roll_number).
roll_number is the INTEGER PRIMARY KEY of the table, so inserting a roll number
that already exists raises sqlite3.IntegrityError, which the method catches
and turns into a failure flag with a fixed message; otherwise the row is
committed.  Returns (new store, success flag, message). -/
def addStudent (db : DB) (name : String) (roll : Int) : DB × Bool × String :=
  if roll ∈ db.rolls then
    (db, false, "Error: Roll number already exists.")
  else
    ({ db with students := db.students ++ [(roll, name)] }, true,
      "Student added successfully!")

/-- Row order of a full scan of the students table: roll_number is the
INTEGER PRIMARY KEY and hence the rowid, and SQLite scans a rowid table in
ascending rowid order, so rows come back ordered by roll_number. -/
def rollOrder (a b : StudentRow) : Prop := a.1 ≤ b.1

instance : DecidableRel rollOrder :=
  fun a b => inferInstanceAs (Decidable (a.1 ≤ b.1))

instance : IsTotal StudentRow rollOrder := ⟨fun a b => Int.le_total a.1 b.1⟩

instance : IsTrans StudentRow rollOrder := ⟨fun _ _ _ h h2 => le_trans h h2⟩

/-- StudentTracker.get_all_students: SELECT roll_number, name FROM students.
There is no ORDER BY; the scan returns rows in rowid order, i.e. ascending
roll_number. -/
def getAllStudents (db : DB) : List StudentRow :=
  List.insertionSort rollOrder db.students

/-- StudentTracker.get_student_by_roll: SELECT name FROM students WHERE
roll_number = ?; fetchone gives the first matching row or None. -/
def getStudentByRoll (db : DB) (roll : Int) : Option String :=
  (db.students.find? (fun st => st.1 == roll)).map Prod.snd

/-- Outcome of one INSERT INTO grades: none means the insert succeeds, some e
means sqlite3 raises an exception whose message is e.  Which inserts fail is
left abstract: with foreign keys off and both NOT NULL columns always
supplied no constraint can fire, but the storage layer may still fail
(disk errors, locked database, ...), which is what the
try/except/rollback of add_grades is for. -/
abbrev InsertOracle := Int → String → Rat → Option String

/-- The oracle of a healthy storage layer: no insert fails. -/
def noFail : InsertOracle := fun _ _ _ => none

/-- The insert loop of StudentTracker.add_grades over zip(subjects, grades):
runs the inserts in order inside the open transaction, stopping at the first
exception; on success it yields the rows the transaction added. -/
def addGradesLoop (fails : InsertOracle) (roll : Int) :
    List (String × Rat) → Except String (List GradeRow)
  | [] => Except.ok []
  | (s, g) :: rest =>
    match fails roll s g with
    | some e => Except.error e
    | none =>
      match addGradesLoop fails roll rest with
      | Except.ok rows => Except.ok ((roll, s, g) :: rows)
      | Except.error e => Except.error e

/-- StudentTracker.add_grades: one INSERT per element of
zip(subjects, grades), then commit; on any exception the transaction is
rolled back (the store is left as it was) and the method returns a failure
flag with the exception message embedded after the fixed prefix. -/
def addGrades (fails : InsertOracle) (db : DB) (roll : Int)
    (subjects : List String) (grades : List Rat) : DB × Bool × String :=
  match addGradesLoop fails roll (subjects.zip grades) with
  | Except.ok rows =>
      ({ db with grades := db.grades ++ rows }, true, "Grades added successfully!")
  | Except.error e => (db, false, "Error adding grades: " ++ e)

/-- StudentTracker.get_student_grades: SELECT subject, grade FROM grades
WHERE roll_number = ?. -/
def getStudentGrades (db : DB) (roll : Int) : List (String × Rat) :=
  (db.grades.filter (fun r => r.1 == roll)).map (fun r => r.2)

/-- The SQLite AVG aggregate: a running (sum, count) pair over the input
column; NULL when no row contributed, sum divided by count otherwise. -/
def avgAgg (gs : List Rat) : Option Rat :=
  let p := gs.foldl (fun (acc : Rat × Nat) g => (acc.1 + g, acc.2 + 1)) ((0 : Rat), (0 : Nat))
  if p.2 = 0 then none else some (p.1 / (p.2 : Rat))

/-- The grade column of the rows of grades with the given roll_number. -/
def gradesOfStudent (db : DB) (roll : Int) : List Rat :=
  (db.grades.filter (fun r => r.1 == roll)).map (fun r => r.2.2)

/-- StudentTracker.calculate_average: SELECT AVG(grade) FROM grades WHERE
roll_number = ?; the aggregate is NULL (None) when the student has no grade
rows. -/
def calculateAverage (db : DB) (roll : Int) : Option Rat :=
  avgAgg (gradesOfStudent db roll)

/-- The grade column of the rows of grades with the given subject,
irrespective of whether the roll_number references an existing student. -/
def gradesForSubject (db : DB) (s : String) : List Rat :=
  (db.grades.filter (fun r => r.2.1 == s)).map (fun r => r.2.2)

/-- StudentTracker.get_class_average: SELECT AVG(grade) FROM grades WHERE
subject = ?; aggregates over every grade row of the subject. -/
def getClassAverage (db : DB) (s : String) : Option Rat :=
  avgAgg (gradesForSubject db s)

/-- The rows of the JOIN of students and grades on roll_number, restricted to
the given subject and projected to (name, grade).  A grade row whose
roll_number matches no student produces no joined row; roll_number is unique
among students, so a matching row joins with exactly one student. -/
def topperRows (db : DB) (s : String) : List (String × Rat) :=
  (db.grades.filter (fun r => r.2.1 == s)).filterMap (fun r =>
    (db.students.find? (fun st => st.1 == r.1)).map (fun st => (st.2, r.2.2)))

/-- ORDER BY grades.grade DESC LIMIT 1: a row of maximal grade.  SQLite does
not specify which row is kept among ties; this embedding keeps the earliest,
which the claims accept (ties broken arbitrarily). -/
def maxByGrade : List (String × Rat) → Option (String × Rat)
  | [] => none
  | r :: rest =>
    match maxByGrade rest with
    | none => some r
    | some b => if r.2 < b.2 then some b else some r

/-- StudentTracker.get_subject_topper: the JOIN of students and grades on
roll_number for the subject, ordered by grade descending, first row or None. -/
def getSubjectTopper (db : DB) (s : String) : Option (String × Rat) :=
  maxByGrade (topperRows db s)

/-- HTTP outcome of a handler: a redirect to the index page, a response with
a status code and a body, or an exception escaping the handler. -/
inductive HResp where
  | redirect : HResp
  | response : Nat → String → HResp
  | crash : HResp
deriving DecidableEq, Repr

/-- The /add_student handler: both form fields must be non-empty strings,
roll_number is coerced with int() — a ValueError there is not caught, so a
non-numeric roll string escapes the handler — then the repository call, whose
failure becomes a 400 with the repository message.  parseInt stands for
the Python builtin int() on the form string. -/
def addStudentHandler (parseInt : String → Option Int) (db : DB)
    (name rollStr : String) : DB × HResp :=
  if name = "" ∨ rollStr = "" then
    (db, HResp.response 400 "Name and Roll Number are required.")
  else
    match parseInt rollStr with
    | none => (db, HResp.crash)
    | some roll =>
      let r := addStudent db name roll
      if r.2.1 then (r.1, HResp.redirect) else (r.1, HResp.response 400 r.2.2)

/-- A grade string the /add_grades handler rejects: float() raises
ValueError, or the parsed value lies outside [0, 100]. -/
def badGrade (parseFloat : String → Option Rat) (g : String) : Prop :=
  parseFloat g = none ∨ ∃ v, parseFloat g = some v ∧ (v < 0 ∨ 100 < v)

/-- The validation loop of the /add_grades handler: float() each grade string
(ValueError gives the 400 numeric message), then range-check the value
(outside the inclusive [0, 100] gives the 400 range message); when every
string passes, the parsed list is handed on.  parseFloat stands for the Python
builtin float() on the form string. -/
def parseGrades (parseFloat : String → Option Rat) :
    List String → Except (Nat × String) (List Rat)
  | [] => Except.ok []
  | g :: rest =>
    match parseFloat g with
    | none => Except.error (400, "Grades must be numeric.")
    | some v =>
      if v < 0 ∨ 100 < v then
        Except.error (400, "Grades must be between 0 and 100.")
      else
        match parseGrades parseFloat rest with
        | Except.ok vs => Except.ok (v :: vs)
        | Except.error e => Except.error e

/-- The /add_grades handler (after int() on the roll_number field): 404 when
the student does not exist, then the validation loop over every grade string
— all before any insert — then StudentTracker.add_grades; a repository
failure surfaces as a 500 carrying the repository message. -/
def addGradesHandler (fails : InsertOracle) (parseFloat : String → Option Rat)
    (db : DB) (roll : Int) (subjects : List String) (gradesStr : List String) :
    DB × HResp :=
  if getStudentByRoll db roll = none then
    (db, HResp.response 404 "Student not found.")
  else
    match parseGrades parseFloat gradesStr with
    | Except.error e => (db, HResp.response e.1 e.2)
    | Except.ok grades =>
      let r := addGrades fails db roll subjects grades
      if r.2.1 then (r.1, HResp.redirect) else (r.1, HResp.response 500 r.2.2)

/-- The scenario store of the spec: student (1, Alice) with Math 90 and
Science 80, built by the repository operations themselves. -/
def sampleDB : DB :=
  (addGrades noFail (addStudent emptyDB "Alice" 1).1 1
    ["Math", "Science"] [90, 80]).1

/-- A store holding a grade row whose roll_number (99) references no student,
next to an ordinary row of the same subject; reachable because the
add_grades of the repository never checks that the student exists. -/
def orphanDB : DB :=
  (addGrades noFail (addGrades noFail (addStudent emptyDB "Alice" 1).1 1
    ["Math"] [50]).1 99 ["Math"] [90]).1

/-- A store whose only grade rows reference no student at all. -/
def orphanOnlyDB : DB :=
  (addGrades noFail emptyDB 99 ["Chem"] [70]).1

/-- Two students added in decreasing roll order: insertion order (2, Bob)
then (1, Alice). -/
def outOfOrderDB : DB :=
  (addStudent (addStudent emptyDB "Bob" 2).1 "Alice" 1).1

/-! ### The AVG aggregate -/

theorem avgAgg_foldl (gs : List Rat) (a : Rat) (n : Nat) :
    gs.foldl (fun (acc : Rat × Nat) g => (acc.1 + g, acc.2 + 1)) (a, n) =
      (a + gs.sum, n + gs.length) := by
  induction gs generalizing a n with
  | nil => simp
  | cons g rest ih =>
    simp only [List.foldl_cons, ih, List.sum_cons, List.length_cons, Prod.mk.injEq]
    exact ⟨by ring, by omega⟩

theorem avgAgg_eq (gs : List Rat) :
    avgAgg gs = if gs = [] then none else some (gs.sum / (gs.length : Rat)) := by
  unfold avgAgg
  rw [avgAgg_foldl]
  simp [List.length_eq_zero]

/-- C4: get_class_average(s) returns the arithmetic mean (sum divided by
count) of every grade value stored for subject s when at least one such row
exists, and NULL — no number — when no grade row for s exists. -/
theorem getClassAverage_mean (db : DB) (s : String) :
    (∀ v : Rat, getClassAverage db s = some v ↔
      (gradesForSubject db s ≠ [] ∧
        v = (gradesForSubject db s).sum / ((gradesForSubject db s).length : Rat))) ∧
    (getClassAverage db s = none ↔ gradesForSubject db s = []) := by
  constructor
  · intro v
    rw [getClassAverage, avgAgg_eq]
    by_cases h : gradesForSubject db s = []
    · simp [h]
    · simp [h, eq_comm]
  · rw [getClassAverage, avgAgg_eq]
    by_cases h : gradesForSubject db s = [] <;> simp [h]

/-- C6: calculate_average of a roll number with no grade rows is NULL: the
AVG aggregate yields no number (in particular not zero), and the method
returns it without raising. -/
theorem calculateAverage_no_grades (db : DB) (roll : Int)
    (h : gradesOfStudent db roll = []) : calculateAverage db roll = none := by
  rw [calculateAverage, avgAgg_eq, if_pos h]

/-- Witness for C6: in the sample store roll 2 has no grade rows. -/
theorem calculateAverage_no_grades_witness :
    calculateAverage sampleDB 2 = none :=
  calculateAverage_no_grades sampleDB 2 (by decide)

/-! ### add_grades: atomicity and zipping -/

theorem addGradesLoop_error_of_bad (fails : InsertOracle) (roll : Int)
    (l : List (String × Rat)) (h : ∃ p ∈ l, fails roll p.1 p.2 ≠ none) :
    ∃ e, addGradesLoop fails roll l = Except.error e ∧
      ∃ p ∈ l, fails roll p.1 p.2 = some e := by
  induction l with
  | nil => simp at h
  | cons q rest ih =>
    obtain ⟨s, g⟩ := q
    obtain ⟨p, hp, hf⟩ := h
    rcases hq : fails roll s g with _ | e
    · have hrest : ∃ p ∈ rest, fails roll p.1 p.2 ≠ none := by
        rcases List.mem_cons.mp hp with rfl | hmem
        · exact absurd hq hf
        · exact ⟨p, hmem, hf⟩
      obtain ⟨e, he, p2, hp2, hf2⟩ := ih hrest
      exact ⟨e, by simp [addGradesLoop, hq, he], p2, List.mem_cons_of_mem _ hp2, hf2⟩
    · exact ⟨e, by simp [addGradesLoop, hq], (s, g), List.mem_cons_self _ _, hq⟩

theorem addGradesLoop_ok_of_good (fails : InsertOracle) (roll : Int)
    (l : List (String × Rat)) (h : ∀ p ∈ l, fails roll p.1 p.2 = none) :
    addGradesLoop fails roll l = Except.ok (l.map (fun p => (roll, p.1, p.2))) := by
  induction l with
  | nil => rfl
  | cons q rest ih =>
    obtain ⟨s, g⟩ := q
    have hq : fails roll s g = none := h (s, g) (List.mem_cons_self _ _)
    have hrest := ih (fun p hp => h p (List.mem_cons_of_mem _ hp))
    simp [addGradesLoop, hq, hrest]

/-- C1: add_grades is all-or-nothing: when any insert of the batch raises,
the transaction is rolled back so the store is exactly as before the call,
the success flag is false, and the returned message embeds the message of a
raising insert after the fixed prefix. -/
theorem addGrades_atomic (fails : InsertOracle) (db : DB) (roll : Int)
    (subjects : List String) (grades : List Rat)
    (h : ∃ p ∈ subjects.zip grades, fails roll p.1 p.2 ≠ none) :
    (addGrades fails db roll subjects grades).1 = db ∧
    (addGrades fails db roll subjects grades).2.1 = false ∧
    ∃ e, (∃ p ∈ subjects.zip grades, fails roll p.1 p.2 = some e) ∧
      (addGrades fails db roll subjects grades).2.2 = "Error adding grades: " ++ e := by
  obtain ⟨e, he, hp⟩ := addGradesLoop_error_of_bad fails roll _ h
  refine ⟨?_, ?_, e, hp, ?_⟩ <;> simp [addGrades, he]

/-- The oracle of a storage layer whose grades table has gone bad: every
insert into grades raises a disk I/O error. -/
def diskFull : InsertOracle := fun _ _ _ => some "disk I/O error"

/-- Witness for C1: a failing batch against the sample store leaves it
untouched and reports the cause. -/
theorem addGrades_atomic_witness :
    (addGrades diskFull sampleDB 1 ["Phys", "Art"] [(50 : Rat), 60]).1 = sampleDB ∧
    (addGrades diskFull sampleDB 1 ["Phys", "Art"] [(50 : Rat), 60]).2.1 = false ∧
    ∃ e, (∃ p ∈ (["Phys", "Art"].zip [(50 : Rat), 60]), diskFull 1 p.1 p.2 = some e) ∧
      (addGrades diskFull sampleDB 1 ["Phys", "Art"] [(50 : Rat), 60]).2.2 =
        "Error adding grades: " ++ e :=
  addGrades_atomic diskFull sampleDB 1 ["Phys", "Art"] [(50 : Rat), 60]
    ⟨("Phys", 50), by decide, by decide⟩

/-- C9: subjects and grades of unequal length do not make add_grades fail:
exactly the pairs of zip(subjects, grades) — the first min of the two
lengths — are appended to the grades relation, the students relation is
untouched, and the call reports success (no insert raises: with foreign
keys off and all NOT NULL columns supplied, none does). -/
theorem addGrades_zip_lengths (fails : InsertOracle) (db : DB) (roll : Int)
    (subjects : List String) (grades : List Rat)
    (h : ∀ p ∈ subjects.zip grades, fails roll p.1 p.2 = none) :
    (addGrades fails db roll subjects grades).2.1 = true ∧
    (addGrades fails db roll subjects grades).2.2 = "Grades added successfully!" ∧
    (addGrades fails db roll subjects grades).1.students = db.students ∧
    (addGrades fails db roll subjects grades).1.grades =
      db.grades ++ (subjects.zip grades).map (fun p => (roll, p.1, p.2)) ∧
    ((addGrades fails db roll subjects grades).1.grades).length =
      db.grades.length + min subjects.length grades.length := by
  have hok := addGradesLoop_ok_of_good fails roll _ h
  refine ⟨?_, ?_, ?_, ?_, ?_⟩ <;>
    simp [addGrades, hok, List.length_zip]

/-- Witness for C9: three subjects and two grades persist exactly two rows. -/
theorem addGrades_zip_lengths_witness :
    (addGrades noFail sampleDB 1 ["Art", "Bio", "Geo"] [(10 : Rat), 20]).2.1 = true ∧
    (addGrades noFail sampleDB 1 ["Art", "Bio", "Geo"] [(10 : Rat), 20]).2.2 =
      "Grades added successfully!" ∧
    (addGrades noFail sampleDB 1 ["Art", "Bio", "Geo"] [(10 : Rat), 20]).1.students =
      sampleDB.students ∧
    (addGrades noFail sampleDB 1 ["Art", "Bio", "Geo"] [(10 : Rat), 20]).1.grades =
      sampleDB.grades ++
        ((["Art", "Bio", "Geo"].zip [(10 : Rat), 20]).map (fun p => ((1 : Int), p.1, p.2))) ∧
    ((addGrades noFail sampleDB 1 ["Art", "Bio", "Geo"] [(10 : Rat), 20]).1.grades).length =
      sampleDB.grades.length +
        min (["Art", "Bio", "Geo"] : List String).length ([(10 : Rat), 20] : List Rat).length :=
  addGrades_zip_lengths noFail sampleDB 1 ["Art", "Bio", "Geo"] [(10 : Rat), 20] (by decide)

/-! ### add_student: conflict and retrievability -/

/-- C3: adding a student whose roll number already exists changes neither
relation (the whole store is returned as it was), the repository reports the
conflict with a failure flag and a descriptive message, and the handler
surfaces it as a 400 response carrying that message — not as an uncaught
exception. -/
theorem addStudent_conflict (parseInt : String → Option Int) (db : DB)
    (name rollStr : String) (roll : Int)
    (hn : name ≠ "") (hr : rollStr ≠ "") (hp : parseInt rollStr = some roll)
    (hdup : roll ∈ db.rolls) :
    addStudent db name roll = (db, false, "Error: Roll number already exists.") ∧
    addStudentHandler parseInt db name rollStr =
      (db, HResp.response 400 "Error: Roll number already exists.") := by
  have h1 : addStudent db name roll = (db, false, "Error: Roll number already exists.") := by
    simp [addStudent, hdup]
  exact ⟨h1, by simp [addStudentHandler, hn, hr, hp, h1]⟩

/-- int() on the roll-number form string of the conflict witness. -/
def demoParseInt : String → Option Int := fun s => if s = "1" then some 1 else none

/-- Witness for C3: re-adding roll 1 to the sample store. -/
theorem addStudent_conflict_witness :
    addStudent sampleDB "Bob" 1 = (sampleDB, false, "Error: Roll number already exists.") ∧
    addStudentHandler demoParseInt sampleDB "Bob" "1" =
      (sampleDB, HResp.response 400 "Error: Roll number already exists.") :=
  addStudent_conflict demoParseInt sampleDB "Bob" "1" 1
    (by decide) (by decide) (by decide) (by decide)

theorem find?_append_fresh (l : List StudentRow) (roll : Int) (name : String)
    (h : roll ∉ l.map Prod.fst) :
    (l ++ [(roll, name)]).find? (fun st => st.1 == roll) = some (roll, name) := by
  induction l with
  | nil => simp
  | cons st rest ih =>
    simp only [List.map_cons, List.mem_cons, not_or] at h
    obtain ⟨h1, h2⟩ := h
    rw [List.cons_append, List.find?_cons_of_neg _ (by simp; exact fun he => h1 he.symm),
      ih h2]

/-- C7: adding a fresh roll number succeeds with the success message, and the
student is immediately retrievable: get_student_by_roll on the new store
returns the name just added. -/
theorem addStudent_retrievable (db : DB) (name : String) (roll : Int)
    (hn : name ≠ "") (h : roll ∉ db.rolls) :
    (addStudent db name roll).2.1 = true ∧
    (addStudent db name roll).2.2 = "Student added successfully!" ∧
    getStudentByRoll (addStudent db name roll).1 roll = some name := by
  have hmap : roll ∉ db.students.map Prod.fst := h
  refine ⟨?_, ?_, ?_⟩ <;>
    simp [addStudent, if_neg h, getStudentByRoll, find?_append_fresh db.students roll name hmap]

/-- Witness for C7: adding roll 2 to the sample store and reading it back. -/
theorem addStudent_retrievable_witness :
    (addStudent sampleDB "Bob" 2).2.1 = true ∧
    (addStudent sampleDB "Bob" 2).2.2 = "Student added successfully!" ∧
    getStudentByRoll (addStudent sampleDB "Bob" 2).1 2 = some "Bob" :=
  addStudent_retrievable sampleDB "Bob" 2 (by decide) (by decide)

/-! ### get_subject_topper and get_class_average over the JOIN -/

theorem maxByGrade_cons (r : String × Rat) (rest : List (String × Rat)) :
    ∃ x, maxByGrade (r :: rest) = some x := by
  rcases hb : maxByGrade rest with _ | b
  · exact ⟨r, by simp [maxByGrade, hb]⟩
  · by_cases hlt : r.2 < b.2
    · exact ⟨b, by simp [maxByGrade, hb, hlt]⟩
    · exact ⟨r, by simp [maxByGrade, hb, hlt]⟩

theorem maxByGrade_spec : ∀ (l : List (String × Rat)) (x : String × Rat),
    maxByGrade l = some x → x ∈ l ∧ ∀ r ∈ l, r.2 ≤ x.2 := by
  intro l
  induction l with
  | nil => intro x h; simp [maxByGrade] at h
  | cons q rest ih =>
    intro x h
    rcases hb : maxByGrade rest with _ | b
    · simp only [maxByGrade, hb] at h
      injection h with h
      subst h
      have hrest : rest = [] := by
        cases rest with
        | nil => rfl
        | cons r2 rest2 =>
          obtain ⟨y, hy⟩ := maxByGrade_cons r2 rest2
          rw [hy] at hb
          exact Option.noConfusion hb
      subst hrest
      simp
    · obtain ⟨hbmem, hble⟩ := ih b hb
      simp only [maxByGrade, hb] at h
      by_cases hlt : q.2 < b.2
      · rw [if_pos hlt] at h
        injection h with h
        subst h
        refine ⟨List.mem_cons_of_mem _ hbmem, ?_⟩
        intro r hr
        rcases List.mem_cons.mp hr with rfl | hr
        · exact le_of_lt hlt
        · exact hble r hr
      · rw [if_neg hlt] at h
        injection h with h
        subst h
        refine ⟨List.mem_cons_self _ _, ?_⟩
        intro r hr
        rcases List.mem_cons.mp hr with rfl | hr
        · exact le_refl _
        · exact le_trans (hble r hr) (le_of_not_lt hlt)

/-- C5 (amended): get_subject_topper works on the JOIN of grades with
students: it is NULL exactly when no grade row of the subject joins to an
existing student, and a returned (name, grade) pair is one of the joined
rows of the subject whose grade is maximal among those joined rows (ties
broken arbitrarily). -/
theorem getSubjectTopper_spec (db : DB) (s : String) :
    (getSubjectTopper db s = none ↔ topperRows db s = []) ∧
    (∀ n g, getSubjectTopper db s = some (n, g) →
      (n, g) ∈ topperRows db s ∧ ∀ r ∈ topperRows db s, r.2 ≤ g) := by
  constructor
  · unfold getSubjectTopper
    cases hl : topperRows db s with
    | nil => simp [maxByGrade]
    | cons r rest =>
      obtain ⟨x, hx⟩ := maxByGrade_cons r rest
      simp [hx]
  · intro n g h
    exact maxByGrade_spec _ (n, g) h

/-- Witness for C5 (amended): the statement at the sample store, where the
Math topper is Alice with 90. -/
theorem getSubjectTopper_spec_witness :
    (getSubjectTopper sampleDB "Math" = none ↔ topperRows sampleDB "Math" = []) ∧
    (∀ n g, getSubjectTopper sampleDB "Math" = some (n, g) →
      (n, g) ∈ topperRows sampleDB "Math" ∧ ∀ r ∈ topperRows sampleDB "Math", r.2 ≤ g) :=
  getSubjectTopper_spec sampleDB "Math"

/-- C5 counterexample: in orphanDB the subject Math has stored grade rows
with values 50 and 90, yet get_subject_topper returns grade 50 — not the
maximum grade recorded for the subject — because the 90 row references
roll 99, which matches no student, so the JOIN drops it. -/
theorem getSubjectTopper_counterexample :
    getSubjectTopper orphanDB "Math" = some ("Alice", 50) ∧
    (90 : Rat) ∈ gradesForSubject orphanDB "Math" ∧
    ¬ ((90 : Rat) ≤ (50 : Rat)) := by decide

theorem topperRows_eq_nil (db : DB) (s : String)
    (horph : ∀ r ∈ db.grades, r.2.1 = s →
      db.students.find? (fun st => st.1 == r.1) = none) :
    topperRows db s = [] := by
  unfold topperRows
  rw [List.filterMap_eq_nil_iff]
  intro r hr
  rw [horph r (List.mem_filter.mp hr).1 (by simpa using (List.mem_filter.mp hr).2)]
  rfl

/-- C10: get_subject_topper joins grades with students while
get_class_average does not: on a store where the subject has grade rows but
every one of them references a roll number with no student, the topper is
NULL while the class average is the numeric mean of those very rows. -/
theorem topper_absent_average_present (db : DB) (s : String)
    (hne : gradesForSubject db s ≠ [])
    (horph : ∀ r ∈ db.grades, r.2.1 = s →
      db.students.find? (fun st => st.1 == r.1) = none) :
    getSubjectTopper db s = none ∧
    getClassAverage db s =
      some ((gradesForSubject db s).sum / ((gradesForSubject db s).length : Rat)) := by
  constructor
  · rw [getSubjectTopper, topperRows_eq_nil db s horph]
    rfl
  · rw [getClassAverage, avgAgg_eq, if_neg hne]

/-- Witness for C10: the store whose only Chem row references roll 99 with
no student behind it. -/
theorem topper_absent_average_present_witness :
    getSubjectTopper orphanOnlyDB "Chem" = none ∧
    getClassAverage orphanOnlyDB "Chem" =
      some ((gradesForSubject orphanOnlyDB "Chem").sum /
        ((gradesForSubject orphanOnlyDB "Chem").length : Rat)) :=
  topper_absent_average_present orphanOnlyDB "Chem" (by decide) (by decide)

/-! ### get_all_students: row order -/

/-- C8 (amended): get_all_students returns exactly the stored students — a
permutation of the insertion-ordered relation — sorted by ascending
roll_number (the rowid order of the table); this coincides with insertion order
only when students were added with increasing roll numbers. -/
theorem getAllStudents_sorted (db : DB) :
    List.Perm (getAllStudents db) db.students ∧
    List.Sorted rollOrder (getAllStudents db) :=
  ⟨List.perm_insertionSort rollOrder db.students,
   List.sorted_insertionSort rollOrder db.students⟩

/-- C8 counterexample: Bob (roll 2) was inserted before Alice (roll 1), but
get_all_students returns Alice first: roll-number order, not insertion
order. -/
theorem getAllStudents_counterexample :
    outOfOrderDB.students = [(2, "Bob"), (1, "Alice")] ∧
    getAllStudents outOfOrderDB = [(1, "Alice"), (2, "Bob")] ∧
    getAllStudents outOfOrderDB ≠ outOfOrderDB.students := by decide

/-! ### The /add_grades handler: grade validation -/

theorem parseGrades_error_bad (parseFloat : String → Option Rat)
    (gs : List String) (e : Nat × String)
    (h : parseGrades parseFloat gs = Except.error e) :
    e.1 = 400 ∧ ∃ g ∈ gs, badGrade parseFloat g := by
  induction gs with
  | nil => simp [parseGrades] at h
  | cons g rest ih =>
    rcases hg : parseFloat g with _ | v
    · simp only [parseGrades, hg] at h
      injection h with h
      subst h
      exact ⟨rfl, g, List.mem_cons_self _ _, Or.inl hg⟩
    · by_cases hv : v < 0 ∨ 100 < v
      · simp only [parseGrades, hg, if_pos hv] at h
        injection h with h
        subst h
        exact ⟨rfl, g, List.mem_cons_self _ _, Or.inr ⟨v, hg, hv⟩⟩
      · rcases hr : parseGrades parseFloat rest with e2 | vs
        · simp only [parseGrades, hg, if_neg hv, hr] at h
          injection h with h
          subst h
          obtain ⟨h400, g2, hg2, hb2⟩ := ih hr
          exact ⟨h400, g2, List.mem_cons_of_mem _ hg2, hb2⟩
        · simp [parseGrades, hg, if_neg hv, hr] at h

theorem parseGrades_ok_good (parseFloat : String → Option Rat)
    (gs : List String) (vs : List Rat)
    (h : parseGrades parseFloat gs = Except.ok vs) :
    ∀ g ∈ gs, ¬ badGrade parseFloat g := by
  induction gs generalizing vs with
  | nil => simp
  | cons g rest ih =>
    rcases hg : parseFloat g with _ | v
    · simp [parseGrades, hg] at h
    · by_cases hv : v < 0 ∨ 100 < v
      · simp [parseGrades, hg, if_pos hv] at h
      · rcases hr : parseGrades parseFloat rest with e2 | vs2
        · simp [parseGrades, hg, if_neg hv, hr] at h
        · intro g2 hg2 hbad
          rcases List.mem_cons.mp hg2 with rfl | hg2
          · rcases hbad with hnone | ⟨v2, hv2, hrange⟩
            · rw [hg] at hnone
              exact Option.noConfusion hnone
            · rw [hg] at hv2
              injection hv2 with hv2
              subst hv2
              exact hv hrange
          · exact ih vs2 hr g2 hg2 hbad

/-- C2: when the roll number resolves to an existing student, the
/add_grades request is answered with a 400 — with the store exactly as
before, no insert having run — precisely when some submitted grade string
either fails float() or parses to a value outside the inclusive [0, 100];
when every grade string is valid the request is never answered with a 400
(it redirects, or fails with a 500 on a storage error). -/
theorem addGradesHandler_reject_iff (fails : InsertOracle)
    (parseFloat : String → Option Rat) (db : DB) (roll : Int)
    (subjects : List String) (gradesStr : List String)
    (hs : getStudentByRoll db roll ≠ none) :
    (∃ g ∈ gradesStr, badGrade parseFloat g) ↔
      ∃ m, addGradesHandler fails parseFloat db roll subjects gradesStr =
        (db, HResp.response 400 m) := by
  constructor
  · intro hbad
    rcases hpg : parseGrades parseFloat gradesStr with e | vs
    · obtain ⟨h400, -⟩ := parseGrades_error_bad parseFloat gradesStr e hpg
      refine ⟨e.2, ?_⟩
      simp [addGradesHandler, hs, hpg, h400]
    · obtain ⟨g, hg, hb⟩ := hbad
      exact absurd hb (parseGrades_ok_good parseFloat gradesStr vs hpg g hg)
  · rintro ⟨m, hm⟩
    rcases hpg : parseGrades parseFloat gradesStr with e | vs
    · exact (parseGrades_error_bad parseFloat gradesStr e hpg).2
    · exfalso
      rcases hok : (addGrades fails db roll subjects vs).2.1 with _ | _ <;>
        simp [addGradesHandler, hs, hpg, hok] at hm

/-- float() on the grade strings submitted by the C2 witness. -/
def demoParse : String → Option Rat := fun s =>
  if s = "150" then some 150 else if s = "90" then some 90 else none

/-- Witness for C2: submitting the single grade string 150 for Alice. -/
theorem addGradesHandler_reject_iff_witness :
    (∃ g ∈ ["150"], badGrade demoParse g) ↔
      ∃ m, addGradesHandler noFail demoParse sampleDB 1 ["Math"] ["150"] =
        (sampleDB, HResp.response 400 m) :=
  addGradesHandler_reject_iff noFail demoParse sampleDB 1 ["Math"] ["150"] (by decide)

end StudentTrackerApp
